import Mathlib

/-!
Verification development for the parametric 3D modeling tool
(`three-3D-agent`).  The definitions below are shallow embeddings of the
geometry helpers and part-list logic found in
`src/components/TriangleInfill.tsx`, `src/components/WavyStructure.tsx`,
`src/components/Paralette.tsx` and `src/hooks/usePartInteraction.ts`.
JavaScript numbers are modelled by `ℚ` where the source only performs
field operations, and by `ℝ` where the source calls `Math.sqrt` or
trigonometric functions.  The external CSG library (`three-bvh-csg`) is
modelled by an abstract evaluator that may fail, mirroring the fact that
`evaluator.evaluate` can throw.
-/

/-- JavaScript `Math.round`: round half toward positive infinity. -/
def jsRound (q : ℚ) : ℤ := ⌊q + 1/2⌋

/-- The source's row-parity computation `((rowIdx % 2) + 2) % 2` where `%`
is JavaScript's truncating remainder (`Int.tmod`). -/
def jsParity (r : ℤ) : ℤ := (r.tmod 2 + 2).tmod 2

/-- Integer range `[lo, hi]` traversed by a JavaScript
`for (let i = lo; i <= hi; i++)` loop. -/
def intRange (lo hi : ℤ) : List ℤ :=
  (List.range (hi + 1 - lo).toNat).map (fun n : ℕ => lo + (n : ℤ))

/-- JavaScript `Math.min(a, b, c)`. -/
def jsMin3 {α : Type} [LinearOrder α] (a b c : α) : α := min (min a b) c

/-- JavaScript `Math.max(a, b, c)`. -/
def jsMax3 {α : Type} [LinearOrder α] (a b c : α) : α := max (max a b) c

/-- `pointInTriangle` from `TriangleInfill.tsx` lines 16-23: sign test on
the three edge cross products; true when no strictly negative and strictly
positive value coexist. -/
def pointInTriangle {α : Type} [LinearOrderedField α]
    (px py : α) (v0 v1 v2 : α × α) : Bool :=
  let d1 := (px - v1.1) * (v0.2 - v1.2) - (v0.1 - v1.1) * (py - v1.2)
  let d2 := (px - v2.1) * (v1.2 - v2.2) - (v1.1 - v2.1) * (py - v2.2)
  let d3 := (px - v0.1) * (v2.2 - v0.2) - (v2.1 - v0.1) * (py - v0.2)
  let hasNeg := decide (d1 < 0) || decide (d2 < 0) || decide (d3 < 0)
  let hasPos := decide (0 < d1) || decide (0 < d2) || decide (0 < d3)
  !(hasNeg && hasPos)

/-- Spec-side notion used by the claim about `pointInTriangle`: the point
lies strictly inside the triangle or on its boundary, i.e. it is a convex
combination of the three vertices. -/
def insideOrOnBoundary {α : Type} [LinearOrderedField α]
    (px py : α) (v0 v1 v2 : α × α) : Prop :=
  ∃ a b c : α, 0 ≤ a ∧ 0 ≤ b ∧ 0 ≤ c ∧ a + b + c = 1 ∧
    px = a * v0.1 + b * v1.1 + c * v2.1 ∧
    py = a * v0.2 + b * v1.2 + c * v2.2

/-- The three edge cross products of `pointInTriangle` contain both a
strictly negative and a strictly positive value. -/
def crossSignsMixed {α : Type} [LinearOrderedField α]
    (px py : α) (v0 v1 v2 : α × α) : Prop :=
  ((px - v1.1) * (v0.2 - v1.2) - (v0.1 - v1.1) * (py - v1.2) < 0 ∨
   (px - v2.1) * (v1.2 - v2.2) - (v1.1 - v2.1) * (py - v2.2) < 0 ∨
   (px - v0.1) * (v2.2 - v0.2) - (v2.1 - v0.1) * (py - v0.2) < 0) ∧
  (0 < (px - v1.1) * (v0.2 - v1.2) - (v0.1 - v1.1) * (py - v1.2) ∨
   0 < (px - v2.1) * (v1.2 - v2.2) - (v1.1 - v2.1) * (py - v2.2) ∨
   0 < (px - v0.1) * (v2.2 - v0.2) - (v2.1 - v0.1) * (py - v0.2))

/-- Twice the signed area of the triangle `v0 v1 v2`; zero exactly for
degenerate (collinear) vertex triples. -/
def triDet {α : Type} [LinearOrderedField α] (v0 v1 v2 : α × α) : α :=
  (v1.1 - v0.1) * (v2.2 - v0.2) - (v1.2 - v0.2) * (v2.1 - v0.1)

/-- Twice the signed area of a closed polygon given by its vertex list
(shoelace formula); the spec's signed-area test for winding order. -/
def signedArea2 {α : Type} [LinearOrderedField α] (pts : List (α × α)) : α :=
  ((pts.zip (pts.drop 1 ++ pts.take 1)).map
    (fun pq => pq.1.1 * pq.2.2 - pq.2.1 * pq.1.2)).sum

/-- A planar profile with one hole, as built by `createOuterFrame`
(`TriangleInfill.tsx` lines 33-48): vertices in the order the `moveTo` /
`lineTo` calls emit them. -/
structure ShapeWithHole (α : Type) where
  outer : List (α × α)
  hole : List (α × α)

/-- `createOuterFrame` from `TriangleInfill.tsx` lines 33-48. -/
def createOuterFrame {α : Type} [LinearOrderedField α] (hw H T : α) :
    ShapeWithHole α :=
  { outer := [(-hw - T/2, -T/2), (hw + T/2, -T/2), (0, H + T/2)]
  , hole := [(-hw + T/2, T/2), (0, H - T/2), (hw - T/2, T/2)] }

/-- Modelled from the spec: the repository's `lineLineIntersect` helper is
referenced by the Paralette iteration log but its implementation is not
among the provided sources.  Following spec section 4.1: it returns the
intersection of the two infinite lines given by a point and a direction
vector each; in the degenerate case (determinant magnitude below `1e-10`)
it returns the midpoint of `p1` and `p2`. -/
def lineLineIntersect (p1 d1 p2 d2 : ℚ × ℚ) : ℚ × ℚ :=
  let det := d1.1 * d2.2 - d1.2 * d2.1
  if |det| < 1/10000000000 then ((p1.1 + p2.1)/2, (p1.2 + p2.2)/2)
  else
    let t := ((p2.1 - p1.1) * d2.2 - (p2.2 - p1.2) * d2.1) / det
    (p1.1 + t * d1.1, p1.2 + t * d1.2)

/-- Per-part overrides (`types.ts` / `PartOverrides`). -/
structure PartOverrides where
  scaleX : ℚ
  scaleY : ℚ
  scaleZ : ℚ
  bevelRadius : ℚ
  bevelSegments : ℚ
deriving DecidableEq

/-- A `Partial<PartOverrides>` value: each field is present or absent. -/
structure PartialOverrides where
  scaleX : Option ℚ
  scaleY : Option ℚ
  scaleZ : Option ℚ
  bevelRadius : Option ℚ
  bevelSegments : Option ℚ
deriving DecidableEq

/-- JavaScript object spread `{ ...o, ...patch }` where `patch` holds only
its present fields. -/
def mergeOverrides (o : PartOverrides) (patch : PartialOverrides) :
    PartOverrides :=
  { scaleX := patch.scaleX.getD o.scaleX
  , scaleY := patch.scaleY.getD o.scaleY
  , scaleZ := patch.scaleZ.getD o.scaleZ
  , bevelRadius := patch.bevelRadius.getD o.bevelRadius
  , bevelSegments := patch.bevelSegments.getD o.bevelSegments }

/-- `PartData<T extends string>` from `usePartInteraction.ts`. -/
structure PartData (τ : Type) where
  id : String
  type : τ
  overrides : PartOverrides
deriving DecidableEq

/-- The default `updatePartOverrides` of `usePartInteraction.ts` lines
60-70 (no custom updater supplied): merge the patch into each targeted
part, leave every other part untouched. -/
def updatePartOverrides {τ : Type} (prev : List (PartData τ))
    (ids : List String) (patch : PartialOverrides) : List (PartData τ) :=
  prev.map (fun p =>
    if p.id ∈ ids then { p with overrides := mergeOverrides p.overrides patch }
    else p)

/-- Part types of `WavyStructure.tsx`: `'base' | 'x' | 'z'`. -/
inductive WavyPartType where
  | base
  | x
  | z
deriving DecidableEq

/-- `PartData` of `WavyStructure.tsx` lines 7-12. -/
structure WavyPart where
  id : String
  type : WavyPartType
  index : ℕ
  overrides : PartOverrides
deriving DecidableEq

/-- `DEFAULT_OVERRIDES` of `WavyStructure.tsx` line 41. -/
def WAVY_DEFAULT_OVERRIDES : PartOverrides :=
  { scaleX := 1, scaleY := 1, scaleZ := 1, bevelRadius := 0, bevelSegments := 1 }

/-- The part list built by the regeneration effect of `WavyStructure.tsx`
lines 108-116: one base part, then `finCount` x-fins and `finCount`
z-fins (the `for` loops run zero times when the count is negative). -/
def genWavyParts (finCount : ℤ) : List WavyPart :=
  { id := "base", type := .base, index := 0, overrides := WAVY_DEFAULT_OVERRIDES } ::
    ((List.range finCount.toNat).map (fun i =>
      { id := "xfin-" ++ toString i, type := .x, index := i
      , overrides := WAVY_DEFAULT_OVERRIDES }) ++
     (List.range finCount.toNat).map (fun i =>
      { id := "zfin-" ++ toString i, type := .z, index := i
      , overrides := WAVY_DEFAULT_OVERRIDES }))

/-- The patch restricted to its bevel fields, as built by the `bevelPatch`
object of `WavyStructure.tsx` lines 144-146. -/
def bevelPatchOf (patch : PartialOverrides) : PartialOverrides :=
  { scaleX := none, scaleY := none, scaleZ := none,
    bevelRadius := patch.bevelRadius, bevelSegments := patch.bevelSegments }

/-- The per-part body of the `prev.map` in `updatePartOverrides` of
`WavyStructure.tsx` lines 138-150. -/
def wavyUpdateSingle (updatedTypes : Option (List WavyPartType))
    (ids : List String) (patch : PartialOverrides) (f : WavyPart) : WavyPart :=
  if f.id ∈ ids then { f with overrides := mergeOverrides f.overrides patch }
  else
    match updatedTypes with
    | some ts =>
        if f.type ∈ ts then
          { f with overrides := mergeOverrides f.overrides (bevelPatchOf patch) }
        else f
    | none => f

/-- `updatePartOverrides` of `WavyStructure.tsx` lines 131-152: merge the
patch into each targeted part and propagate any bevel fields of the patch
to every part sharing a type with a targeted part. -/
def wavyUpdatePartOverrides (prev : List WavyPart) (ids : List String)
    (patch : PartialOverrides) : List WavyPart :=
  let hasBevelChange := patch.bevelRadius.isSome || patch.bevelSegments.isSome
  let updatedTypes : Option (List WavyPartType) :=
    if hasBevelChange then
      some ((prev.filter (fun f => decide (f.id ∈ ids))).map (fun f => f.type))
    else none
  prev.map (wavyUpdateSingle updatedTypes ids patch)

/-- The slider parameters consumed by `WavyStructure` (from
`projects.ts`); only `finCount` affects part cardinality, the others only
affect shape. -/
structure WavyParams where
  baseWidth : ℚ
  baseDepth : ℚ
  baseHeight : ℚ
  finCount : ℚ
  finThickness : ℚ
  waveAvg : ℚ
  waveA : ℚ
  waveB : ℚ
deriving DecidableEq

/-- Component state of `WavyStructure`: the value of the regeneration
effect's dependency (`Math.round(params.finCount)`), the part list and the
current selection. -/
structure WavyState where
  finCountDep : ℤ
  parts : List WavyPart
  selected : List String
deriving DecidableEq

/-- Events acting on a mounted `WavyStructure`. -/
inductive WavyEvent where
  | setParams (p : WavyParams)
  | select (ids : List String)
  | update (ids : List String) (patch : PartialOverrides)
  | deleteSelected
deriving DecidableEq

/-- State after mount: the regeneration effect has run once. -/
def initWavyState (p : WavyParams) : WavyState :=
  { finCountDep := jsRound p.finCount
  , parts := genWavyParts (jsRound p.finCount)
  , selected := [] }

/-- One step of the `WavyStructure` component.  A parameter change re-runs
the regeneration effect (dependency `[finCount]`) exactly when the rounded
fin count differs from the remembered dependency value; `deleteSelected`
(lines 118-123) filters out the selected parts and clears the
selection. -/
def stepWavy (s : WavyState) (e : WavyEvent) : WavyState :=
  match e with
  | .setParams p =>
      let n := jsRound p.finCount
      if n = s.finCountDep then s
      else { finCountDep := n, parts := genWavyParts n, selected := [] }
  | .select ids => { s with selected := ids }
  | .update ids patch =>
      { s with parts := wavyUpdatePartOverrides s.parts ids patch }
  | .deleteSelected =>
      if s.selected = [] then s
      else { s with parts := s.parts.filter (fun p => !decide (p.id ∈ s.selected)),
                    selected := [] }

/-- Run a sequence of events from the freshly mounted state. -/
def runWavy (p : WavyParams) (es : List WavyEvent) : WavyState :=
  es.foldl stepWavy (initWavyState p)

/-- All parts of equal type carry the same bevel override values. -/
def bevelAligned (parts : List WavyPart) : Prop :=
  ∀ a ∈ parts, ∀ b ∈ parts, a.type = b.type →
    a.overrides.bevelRadius = b.overrides.bevelRadius ∧
    a.overrides.bevelSegments = b.overrides.bevelSegments

/-- `getInnerTriVerts` from `TriangleInfill.tsx` lines 25-31. -/
noncomputable def getInnerTriVerts (hw H T : ℝ) :
    (ℝ × ℝ) × (ℝ × ℝ) × (ℝ × ℝ) :=
  ((-hw + T/2, T/2), (hw - T/2, T/2), (0, H - T/2))

/-- Move a vertex away from the centroid `(cx, cy)` by `margin`
(`TriangleInfill.tsx` lines 83-87). -/
noncomputable def expandVert (cx cy margin : ℝ) (v : ℝ × ℝ) : ℝ × ℝ :=
  let dx := v.1 - cx
  let dy := v.2 - cy
  let dist := Real.sqrt (dx * dx + dy * dy)
  (v.1 + dx * (margin / dist), v.2 + dy * (margin / dist))

/-- The expanded bounding triangle of `createHoneycombSlab`
(`TriangleInfill.tsx` lines 77-88): each inner vertex pushed outward from
the centroid by one and a half cells. -/
noncomputable def expandedTriVerts (hw H T cellSize : ℝ) :
    (ℝ × ℝ) × (ℝ × ℝ) × (ℝ × ℝ) :=
  let iv := getInnerTriVerts hw H T
  let margin := cellSize * 1.5
  let cx := (iv.1.1 + iv.2.1.1 + iv.2.2.1) / 3
  let cy := (iv.1.2 + iv.2.1.2 + iv.2.2.2) / 3
  (expandVert cx cy margin iv.1,
   expandVert cx cy margin iv.2.1,
   expandVert cx cy margin iv.2.2)

/-- Hexagon hole radius (`TriangleInfill.tsx` line 103):
`cellSize - wallThickness / Math.sqrt(3)`. -/
noncomputable def holeR (cellSize wallThickness : ℝ) : ℝ :=
  cellSize - wallThickness / Real.sqrt 3

/-- The 7-point hexagon hole path pushed for one cell
(`TriangleInfill.tsx` lines 130-138). -/
noncomputable def hexHolePath (cx cy r : ℝ) : List (ℝ × ℝ) :=
  (List.range 7).map (fun i : ℕ =>
    let angle := Real.pi / 6 + (i : ℝ) * Real.pi / 3
    (cx + r * Real.cos angle, cy + r * Real.sin angle))

/-- The hexagon centers generated by the row/column loops of
`createHoneycombSlab` (`TriangleInfill.tsx` lines 110-141). -/
noncomputable def honeycombCenters (hw H T cellSize : ℝ) (fromTop : Bool) :
    List (ℝ × ℝ) :=
  let ev := expandedTriVerts hw H T cellSize
  let minX := jsMin3 ev.1.1 ev.2.1.1 ev.2.2.1
  let maxX := jsMax3 ev.1.1 ev.2.1.1 ev.2.2.1
  let minY := jsMin3 ev.1.2 ev.2.1.2 ev.2.2.2
  let maxY := jsMax3 ev.1.2 ev.2.1.2 ev.2.2.2
  let spacingX := Real.sqrt 3 * cellSize
  let spacingY := 1.5 * cellSize
  let anchorY := if fromTop then H - T/2 else T/2
  let rowsDown := ⌈(anchorY - minY) / spacingY⌉ + 2
  let rowsUp := ⌈(maxY - anchorY) / spacingY⌉ + 2
  let colsHalf := ⌈(maxX - minX) / spacingX⌉ + 2
  (intRange (-rowsDown) rowsUp).flatMap (fun rowIdx =>
    let cy := anchorY + (rowIdx : ℝ) * spacingY
    if cy < minY - cellSize ∨ cy > maxY + cellSize then []
    else
      let rowParity := jsParity rowIdx
      (intRange (-colsHalf) colsHalf).filterMap (fun colIdx : ℤ =>
        let cx := (colIdx : ℝ) * spacingX +
          (if rowParity = 1 then spacingX / 2 else 0)
        if pointInTriangle cx cy ev.1 ev.2.1 ev.2.2 then some (cx, cy)
        else none))

/-- The honeycomb slab: the extruded bounding rectangle of the expanded
triangle together with the hexagon hole paths punched into it. -/
structure HoneySlab where
  minX : ℝ
  maxX : ℝ
  minY : ℝ
  maxY : ℝ
  holes : List (List (ℝ × ℝ))
  depth : ℝ
  zOffset : ℝ

/-- `createHoneycombSlab` from `TriangleInfill.tsx` lines 76-146.  When
the hole radius is at most `0.01` the base slab is returned with no holes;
otherwise one hexagon path per generated center is punched. -/
noncomputable def createHoneycombSlab (hw H T cellSize wallThickness depth : ℝ)
    (fromTop : Bool) : HoneySlab :=
  let ev := expandedTriVerts hw H T cellSize
  let minX := jsMin3 ev.1.1 ev.2.1.1 ev.2.2.1
  let maxX := jsMax3 ev.1.1 ev.2.1.1 ev.2.2.1
  let minY := jsMin3 ev.1.2 ev.2.1.2 ev.2.2.2
  let maxY := jsMax3 ev.1.2 ev.2.1.2 ev.2.2.2
  if holeR cellSize wallThickness ≤ 0.01 then
    { minX := minX, maxX := maxX, minY := minY, maxY := maxY,
      holes := [], depth := depth + 0.02, zOffset := -(depth + 0.02) / 2 }
  else
    { minX := minX, maxX := maxX, minY := minY, maxY := maxY,
      holes := (honeycombCenters hw H T cellSize fromTop).map
        (fun c => hexHolePath c.1 c.2 (holeR cellSize wallThickness)),
      depth := depth + 0.02, zOffset := -(depth + 0.02) / 2 }

/-- Spec-side grid property for one hexagon hole of the honeycomb slab:
the hole is the hexagon of the current hole radius centered at
`(colIdx * sqrt(3) * cellSize + rowParity * sqrt(3) * cellSize / 2,
anchorY + rowIdx * 1.5 * cellSize)` with `anchorY` the anchored edge's
y-coordinate. -/
def onHoneycombGrid (H T cellSize wallThickness : ℝ) (fromTop : Bool)
    (hole : List (ℝ × ℝ)) : Prop :=
  ∃ rowIdx colIdx : ℤ,
    hole = hexHolePath
      ((colIdx : ℝ) * (Real.sqrt 3 * cellSize) +
        (jsParity rowIdx : ℝ) * (Real.sqrt 3 * cellSize / 2))
      ((if fromTop then H - T/2 else T/2) + (rowIdx : ℝ) * (1.5 * cellSize))
      (holeR cellSize wallThickness)

/-- Move a vertex toward the centroid `(cx, cy)` by `offset`
(`TriangleInfill.tsx` lines 54-63): positive shrinks, negative expands. -/
noncomputable def offsetVert (cx cy offset : ℝ) (v : ℝ × ℝ) : ℝ × ℝ :=
  let dx := cx - v.1
  let dy := cy - v.2
  let dist := Real.sqrt (dx * dx + dy * dy)
  (v.1 + dx * (offset / dist), v.2 + dy * (offset / dist))

/-- The solid inner triangle used as CSG clipping volume. -/
structure TriSolid where
  v0 : ℝ × ℝ
  v1 : ℝ × ℝ
  v2 : ℝ × ℝ
  depth : ℝ
  zOffset : ℝ

/-- `createInnerTriangleSolid` from `TriangleInfill.tsx` lines 51-72. -/
noncomputable def createInnerTriangleSolid (hw H T depth offset : ℝ) :
    TriSolid :=
  let verts := getInnerTriVerts hw H T
  if offset = 0 then
    { v0 := verts.1, v1 := verts.2.1, v2 := verts.2.2,
      depth := depth, zOffset := -depth / 2 }
  else
    let cx := (verts.1.1 + verts.2.1.1 + verts.2.2.1) / 3
    let cy := (verts.1.2 + verts.2.1.2 + verts.2.2.2) / 3
    { v0 := offsetVert cx cy offset verts.1,
      v1 := offsetVert cx cy offset verts.2.1,
      v2 := offsetVert cx cy offset verts.2.2,
      depth := depth, zOffset := -depth / 2 }

/-- One thin box strip of the triangle-grid slab, with its rotation and
translation applied. -/
structure StripBox where
  sizeX : ℝ
  sizeY : ℝ
  sizeZ : ℝ
  rotZ : ℝ
  tx : ℝ
  ty : ℝ

/-- The values taken by a JavaScript loop
`for (let d = lo; d <= hi; d += step)`.  The source's loop would not
terminate for `step ≤ 0`; the sliders keep `step` (the cell size)
strictly positive, and that impossible case is modelled as an empty
list. -/
noncomputable def loopSteps (lo hi step : ℝ) : List ℝ :=
  if 0 < step then
    (List.range (⌊(hi - lo) / step⌋ + 1).toNat).map
      (fun k : ℕ => lo + (k : ℝ) * step)
  else []

/-- `addParallelLines` from `createTriangleSlab`
(`TriangleInfill.tsx` lines 160-172). -/
noncomputable def addParallelLines (diag wallThickness slabDepth cellSize
    anchorY theta : ℝ) : List StripBox :=
  let nx := -Real.sin theta
  let ny := Real.cos theta
  let anchorProj := 0 * nx + anchorY * ny
  (loopSteps (-diag) diag cellSize).map (fun d =>
    let offset := anchorProj + d
    { sizeX := diag * 2, sizeY := wallThickness, sizeZ := slabDepth,
      rotZ := theta, tx := offset * nx, ty := offset * ny })

/-- The merged triangle-grid slab. -/
structure TriSlab where
  boxes : List StripBox

/-- `createTriangleSlab` from `TriangleInfill.tsx` lines 148-182: three
families of parallel strips at 0, 60 and -60 degrees. -/
noncomputable def createTriangleSlab (hw H T cellSize wallThickness depth : ℝ)
    (fromTop : Bool) : TriSlab :=
  let margin := cellSize * 2
  let minX := -hw - margin
  let maxX := hw + margin
  let minY := -margin
  let maxY := H + margin
  let slabW := maxX - minX + margin * 2
  let diag := Real.sqrt (slabW ^ 2 + (maxY - minY + margin * 2) ^ 2)
  let anchorY := if fromTop then H - T/2 else T/2
  let slabDepth := depth + 0.02
  { boxes :=
      addParallelLines diag wallThickness slabDepth cellSize anchorY 0 ++
      addParallelLines diag wallThickness slabDepth cellSize anchorY
        (Real.pi / 3) ++
      addParallelLines diag wallThickness slabDepth cellSize anchorY
        (-(Real.pi / 3)) }

/-- CSG boolean operators of `three-bvh-csg`. -/
inductive CsgOp where
  | add
  | sub
  | inter
deriving DecidableEq

/-- Solid geometry values flowing through the pipeline. -/
inductive Geo where
  | roundedBox (width height depth : ℝ) (segments : ℕ) (radius : ℝ)
  | cylinder (radiusTop radiusBottom height : ℝ) (radialSegments : ℕ)
  | box (width height depth : ℝ)
  | lathe (points : List (ℝ × ℝ)) (segments : ℕ)
  | capsule (radius length : ℝ) (capSegments radialSegments : ℕ)
  | honeySlab (slab : HoneySlab)
  | triSlab (slab : TriSlab)
  | innerTri (tri : TriSolid)

/-- A CSG brush: a geometry with its world position and rotation. -/
structure Brush where
  geo : Geo
  posX : ℝ
  posY : ℝ
  posZ : ℝ
  rotX : ℝ
  rotY : ℝ
  rotZ : ℝ

/-- A brush with the identity transform. -/
noncomputable def brushOf (g : Geo) : Brush :=
  { geo := g, posX := 0, posY := 0, posZ := 0,
    rotX := 0, rotY := 0, rotZ := 0 }

/-- A positioned and rotated brush. -/
def brushAt (g : Geo) (px py pz rx ry rz : ℝ) : Brush :=
  { geo := g, posX := px, posY := py, posZ := pz,
    rotX := rx, rotY := ry, rotZ := rz }

/-- The external CSG evaluator (`three-bvh-csg`'s `Evaluator.evaluate`):
combines two brushes with a boolean operator and may throw. -/
def Evaluator : Type := Brush → Brush → CsgOp → Except Unit Geo

/-- `geometry.computeVertexNormals()` mutates rendering attributes in
place and leaves the geometric content unchanged; in this abstraction it
is the identity. -/
def computeVertexNormals (g : Geo) : Geo := g

/-- `finalGeo.groups.length = 0` clears material grouping metadata in
place; in this abstraction it is the identity. -/
def clearGroups (g : Geo) : Geo := g

/-- An evaluator that always throws. -/
def failEvaluator : Evaluator := fun _ _ _ => Except.error ()

/-- An evaluator that always succeeds with a fixed solid. -/
def okEvaluator : Evaluator := fun _ _ _ => Except.ok (Geo.box 1 1 1)

/-- The pattern slab chosen by the `switch` of `generateInfill`
(`TriangleInfill.tsx` lines 192-202): `1` is honeycomb, `2` is triangle,
everything else (including `0`, NONE) selects nothing. -/
noncomputable def infillPatternGeo (pattern : ℤ)
    (hw H T cellSize wallThickness depth : ℝ) (fromTop : Bool) : Option Geo :=
  if pattern = 1 then
    some (Geo.honeySlab
      (createHoneycombSlab hw H T cellSize wallThickness depth fromTop))
  else if pattern = 2 then
    some (Geo.triSlab
      (createTriangleSlab hw H T cellSize wallThickness depth fromTop))
  else none

/-- `generateInfill` from `TriangleInfill.tsx` lines 186-228: `null` for
pattern NONE (0) or an unrecognized pattern; otherwise the pattern slab is
intersected with the slightly expanded inner triangle, and a CSG failure
degrades to `null`. -/
noncomputable def generateInfill (ev : Evaluator) (pattern : ℤ)
    (hw H T cellSize wallThickness depth : ℝ) (fromTop : Bool) : Option Geo :=
  if pattern = 0 then none
  else
    match infillPatternGeo pattern hw H T cellSize wallThickness depth fromTop with
    | none => none
    | some patternGeo =>
      let outset := -(T * 0.3)
      let triangleGeo := createInnerTriangleSolid hw H T depth outset
      match ev (brushOf (Geo.innerTri triangleGeo)) (brushOf patternGeo)
          CsgOp.inter with
      | Except.ok resultGeo => some (computeVertexNormals resultGeo)
      | Except.error _ => none

/-- JavaScript `Math.atan2`. -/
noncomputable def jsAtan2 (y x : ℝ) : ℝ :=
  if 0 < x then Real.arctan (y / x)
  else if x < 0 then
    (if 0 ≤ y then Real.arctan (y / x) + Real.pi
     else Real.arctan (y / x) - Real.pi)
  else if 0 < y then Real.pi / 2
  else if y < 0 then -(Real.pi / 2)
  else 0

/-- The CSG chain of the Paralette frame (`Paralette.tsx` lines 62-108):
base bar plus two legs plus apex cap, minus the grip hole; any evaluator
failure aborts the chain. -/
noncomputable def frameGeoE (ev : Evaluator) (W H T depth gripDia : ℝ) :
    Except Unit Geo :=
  let hw := W / 2
  let gripInnerR := gripDia / 2
  let gripOuterR := gripDia / 2 + T * 0.4
  let cornerR := T * 0.48
  let legLength := Real.sqrt (hw * hw + H * H)
  let legAngle := jsAtan2 H hw
  let segs := 6
  let legExt := gripOuterR * 0.9
  let extLegLen := legLength + legExt
  let shiftX := legExt / 2 * (hw / legLength)
  let shiftY := legExt / 2 * (H / legLength)
  let baseBrush := brushOf (Geo.roundedBox W T depth segs cornerR)
  let leftLegBrush := brushAt (Geo.roundedBox extLegLen T depth segs cornerR)
    (-hw / 2 + shiftX) (H / 2 + shiftY) 0 0 0 legAngle
  (ev baseBrush leftLegBrush CsgOp.add).bind (fun r1 =>
    let rightLegBrush := brushAt (Geo.roundedBox extLegLen T depth segs cornerR)
      (hw / 2 - shiftX) (H / 2 + shiftY) 0 0 0 (Real.pi - legAngle)
    (ev (brushOf r1) rightLegBrush CsgOp.add).bind (fun r2 =>
      let capBrush := brushAt
        (Geo.cylinder gripOuterR gripOuterR (depth + 0.01) 32)
        0 H 0 (Real.pi / 2) 0 0
      (ev (brushOf r2) capBrush CsgOp.add).bind (fun r3 =>
        let holeBrush := brushAt
          (Geo.cylinder gripInnerR gripInnerR (depth * 3) 32)
          0 H 0 (Real.pi / 2) 0 0
        (ev (brushOf r3) holeBrush CsgOp.sub).map (fun r4 => r4))))

/-- `frameGeo` of `Paralette.tsx` lines 62-113: the caught CSG chain; on
success the result has its groups cleared and normals recomputed, on any
exception the fallback `BoxGeometry(W, H, depth)` is returned. -/
noncomputable def frameGeo (ev : Evaluator) (W H T depth gripDia : ℝ) : Geo :=
  match frameGeoE ev W H T depth gripDia with
  | Except.ok g => computeVertexNormals (clearGroups g)
  | Except.error _ => Geo.box W H depth

/-- C10: the generic `updatePartOverrides` of `usePartInteraction`
preserves length, order, ids and types; parts outside the target set are
unchanged, and for targeted parts exactly the fields present in the
partial override are replaced while absent fields keep their previous
values. -/
theorem updatePartOverrides_pointwise {τ : Type} (prev : List (PartData τ))
    (ids : List String) (patch : PartialOverrides) :
    (updatePartOverrides prev ids patch).length = prev.length ∧
    ∀ (i : ℕ) (h : i < prev.length)
      (h2 : i < (updatePartOverrides prev ids patch).length),
      ((updatePartOverrides prev ids patch).get ⟨i, h2⟩).id =
        (prev.get ⟨i, h⟩).id ∧
      ((updatePartOverrides prev ids patch).get ⟨i, h2⟩).type =
        (prev.get ⟨i, h⟩).type ∧
      ((prev.get ⟨i, h⟩).id ∉ ids →
        (updatePartOverrides prev ids patch).get ⟨i, h2⟩ = prev.get ⟨i, h⟩) ∧
      ((prev.get ⟨i, h⟩).id ∈ ids →
        ((updatePartOverrides prev ids patch).get ⟨i, h2⟩).overrides.scaleX =
          patch.scaleX.getD (prev.get ⟨i, h⟩).overrides.scaleX ∧
        ((updatePartOverrides prev ids patch).get ⟨i, h2⟩).overrides.scaleY =
          patch.scaleY.getD (prev.get ⟨i, h⟩).overrides.scaleY ∧
        ((updatePartOverrides prev ids patch).get ⟨i, h2⟩).overrides.scaleZ =
          patch.scaleZ.getD (prev.get ⟨i, h⟩).overrides.scaleZ ∧
        ((updatePartOverrides prev ids patch).get ⟨i, h2⟩).overrides.bevelRadius =
          patch.bevelRadius.getD (prev.get ⟨i, h⟩).overrides.bevelRadius ∧
        ((updatePartOverrides prev ids patch).get ⟨i, h2⟩).overrides.bevelSegments =
          patch.bevelSegments.getD (prev.get ⟨i, h⟩).overrides.bevelSegments) := by
  refine ⟨by simp [updatePartOverrides], ?_⟩
  intro i h h2
  simp only [List.get_eq_getElem, updatePartOverrides, List.getElem_map]
  by_cases hid : prev[i].id ∈ ids
  · simp [hid, mergeOverrides]
  · simp [hid]

/-- Witness for C10 at a concrete part list. -/
theorem updatePartOverrides_pointwise_witness :
    ((updatePartOverrides
        ([{ id := "a", type := 0, overrides := ⟨1, 1, 1, 0, 1⟩ },
          { id := "b", type := 0, overrides := ⟨1, 1, 1, 0, 1⟩ }] :
          List (PartData ℕ))
        ["b"] ⟨none, some 3, none, none, none⟩).get ⟨1, by decide⟩).overrides.scaleY
      = 3 ∧
    ((updatePartOverrides
        ([{ id := "a", type := 0, overrides := ⟨1, 1, 1, 0, 1⟩ },
          { id := "b", type := 0, overrides := ⟨1, 1, 1, 0, 1⟩ }] :
          List (PartData ℕ))
        ["b"] ⟨none, some 3, none, none, none⟩).get ⟨0, by decide⟩) =
      { id := "a", type := 0, overrides := ⟨1, 1, 1, 0, 1⟩ } := by
  obtain ⟨-, hpt⟩ := updatePartOverrides_pointwise
    ([{ id := "a", type := 0, overrides := ⟨1, 1, 1, 0, 1⟩ },
      { id := "b", type := 0, overrides := ⟨1, 1, 1, 0, 1⟩ }] :
      List (PartData ℕ))
    ["b"] ⟨none, some 3, none, none, none⟩
  constructor
  · exact ((hpt 1 (by decide) (by decide)).2.2.2 (by decide)).2.1.trans (by decide)
  · exact ((hpt 0 (by decide) (by decide)).2.2.1 (by decide)).trans (by decide)

/-- C4: the outer boundary of the profile built by `createOuterFrame` is
counter-clockwise (positive signed area) and its triangular hole is
clockwise (negative signed area) whenever `W > T > 0` and `H > T`. -/
theorem createOuterFrame_winding (W H T : ℚ) (hT : 0 < T) (hW : T < W)
    (hH : T < H) :
    0 < signedArea2 ((createOuterFrame (W/2) H T).outer) ∧
    signedArea2 ((createOuterFrame (W/2) H T).hole) < 0 := by
  simp only [createOuterFrame, signedArea2, List.drop, List.take,
    List.zip, List.zipWith, List.map, List.sum_cons, List.sum_nil,
    List.append_nil]
  constructor
  · nlinarith [mul_pos (by linarith : (0:ℚ) < W/2 + T/2)
      (by linarith : (0:ℚ) < H + T)]
  · nlinarith [mul_pos (by linarith : (0:ℚ) < W/2 - T/2)
      (by linarith : (0:ℚ) < H - T)]

/-- Witness for C4 at the end-to-end scenario parameters
`baseWidth = 50`, `height = 60`, `wallThickness = 3`. -/
theorem createOuterFrame_winding_witness :
    0 < signedArea2 ((createOuterFrame ((50 : ℚ)/2) 60 3).outer) ∧
    signedArea2 ((createOuterFrame ((50 : ℚ)/2) 60 3).hole) < 0 :=
  createOuterFrame_winding 50 60 3 (by norm_num) (by norm_num) (by norm_num)

/-- C9: `lineLineIntersect` (modelled from the spec) returns the midpoint
of the two base points when the determinant magnitude is below `1e-10`,
and otherwise a point that lies on both infinite lines: it equals
`p1 + t * d1` and also `p2 + s * d2` for the parameters `t` and `s`
written out explicitly. -/
theorem lineLineIntersect_spec (p1 d1 p2 d2 : ℚ × ℚ) :
    (|d1.1 * d2.2 - d1.2 * d2.1| < 1/10000000000 →
      lineLineIntersect p1 d1 p2 d2 = ((p1.1 + p2.1)/2, (p1.2 + p2.2)/2)) ∧
    (1/10000000000 ≤ |d1.1 * d2.2 - d1.2 * d2.1| →
      lineLineIntersect p1 d1 p2 d2 =
        (p1.1 + (((p2.1 - p1.1) * d2.2 - (p2.2 - p1.2) * d2.1) /
            (d1.1 * d2.2 - d1.2 * d2.1)) * d1.1,
         p1.2 + (((p2.1 - p1.1) * d2.2 - (p2.2 - p1.2) * d2.1) /
            (d1.1 * d2.2 - d1.2 * d2.1)) * d1.2) ∧
      lineLineIntersect p1 d1 p2 d2 =
        (p2.1 + (((p2.1 - p1.1) * d1.2 - (p2.2 - p1.2) * d1.1) /
            (d1.1 * d2.2 - d1.2 * d2.1)) * d2.1,
         p2.2 + (((p2.1 - p1.1) * d1.2 - (p2.2 - p1.2) * d1.1) /
            (d1.1 * d2.2 - d1.2 * d2.1)) * d2.2)) := by
  constructor
  · intro hdet
    simp only [lineLineIntersect]
    rw [if_pos hdet]
  · intro hdet
    have hlt : ¬ |d1.1 * d2.2 - d1.2 * d2.1| < 1/10000000000 := not_lt.mpr hdet
    have hne : d1.1 * d2.2 - d1.2 * d2.1 ≠ 0 := by
      intro h0
      rw [h0] at hdet
      norm_num at hdet
    constructor
    · simp only [lineLineIntersect]
      rw [if_neg hlt]
    · simp only [lineLineIntersect]
      rw [if_neg hlt]
      refine Prod.ext ?_ ?_ <;> field_simp <;> ring

/-- Witness for C9: a parallel pair falls back to the midpoint and a
perpendicular pair meets at the actual intersection point. -/
theorem lineLineIntersect_spec_witness :
    lineLineIntersect (0, 0) (1, 0) (0, 2) (2, 0) = (0, 1) ∧
    lineLineIntersect (0, 0) (1, 0) (1, 1) (0, 1) = (1, 0) := by
  constructor
  · exact ((lineLineIntersect_spec (0, 0) (1, 0) (0, 2) (2, 0)).1
      (by norm_num)).trans (by norm_num [Prod.ext_iff])
  · exact (((lineLineIntersect_spec (0, 0) (1, 0) (1, 1) (0, 1)).2
      (by norm_num)).1).trans (by norm_num [Prod.ext_iff])

/-- C2: the Paralette frame construction never lets a CSG exception reach
the caller — if the boolean chain fails the fallback box of dimensions
`baseWidth x triangleHeight x depth` is returned, and if it succeeds the
chain's result is returned. -/
theorem frameGeo_catches (ev : Evaluator) (W H T depth gripDia : ℝ) :
    (∀ e, frameGeoE ev W H T depth gripDia = Except.error e →
      frameGeo ev W H T depth gripDia = Geo.box W H depth) ∧
    (∀ g, frameGeoE ev W H T depth gripDia = Except.ok g →
      frameGeo ev W H T depth gripDia = computeVertexNormals (clearGroups g)) := by
  constructor
  · intro e he
    simp [frameGeo, he]
  · intro g hg
    simp [frameGeo, hg]

/-- Witness for C2: with an evaluator that always throws, the frame
degrades to the bounding box. -/
theorem frameGeo_catches_witness :
    frameGeo failEvaluator 4 3 1 2 5 = Geo.box 4 3 2 :=
  (frameGeo_catches failEvaluator 4 3 1 2 5).1 () rfl

/-- C3: `generateInfill` returns `null` exactly when the pattern selector
is NONE (0) or unrecognized, or when the CSG intersection step throws: it
is `null` for pattern 0, `null` for every pattern other than 1 and 2 (the
`switch` default), and for a recognized pattern it is `null` if and only
if the CSG intersection call fails; no exception propagates (the function
is total). -/
theorem generateInfill_null_policy (ev : Evaluator) (pattern : ℤ)
    (hw H T cellSize wallThickness depth : ℝ) (ft : Bool) :
    (pattern = 0 →
      generateInfill ev pattern hw H T cellSize wallThickness depth ft = none) ∧
    ((pattern ≠ 1 ∧ pattern ≠ 2) →
      generateInfill ev pattern hw H T cellSize wallThickness depth ft = none) ∧
    (infillPatternGeo pattern hw H T cellSize wallThickness depth ft = none ↔
      (pattern ≠ 1 ∧ pattern ≠ 2)) ∧
    (∀ pg, infillPatternGeo pattern hw H T cellSize wallThickness depth ft =
        some pg →
      (generateInfill ev pattern hw H T cellSize wallThickness depth ft = none ↔
        ev (brushOf (Geo.innerTri
            (createInnerTriangleSolid hw H T depth (-(T * 0.3)))))
          (brushOf pg) CsgOp.inter = Except.error ())) := by
  refine ⟨fun h0 => by simp [generateInfill, h0], ?_, ?_, ?_⟩
  · rintro ⟨p1, p2⟩
    by_cases h0 : pattern = 0
    · simp [generateInfill, h0]
    · have hnone : infillPatternGeo pattern hw H T cellSize wallThickness
          depth ft = none := by
        simp [infillPatternGeo, p1, p2]
      simp [generateInfill, h0, hnone]
  · by_cases p1 : pattern = 1
    · simp [infillPatternGeo, p1]
    · by_cases p2 : pattern = 2 <;> simp [infillPatternGeo, p1, p2]
  · intro pg hpg
    have hp0 : pattern ≠ 0 := by
      rintro rfl
      simp [infillPatternGeo] at hpg
    simp only [generateInfill, if_neg hp0, hpg]
    rcases hcsg : ev (brushOf (Geo.innerTri
        (createInnerTriangleSolid hw H T depth (-(T * 0.3)))))
        (brushOf pg) CsgOp.inter with e | g
    · simp [hcsg]
    · simp [hcsg]

/-- Witness for C3: a throwing evaluator yields `null` infill for the
honeycomb pattern, pattern NONE yields `null` even with a succeeding
evaluator, and so does the unrecognized pattern 3. -/
theorem generateInfill_null_policy_witness :
    generateInfill failEvaluator 1 25 60 3 6 0.8 2 false = none ∧
    generateInfill okEvaluator 0 25 60 3 6 0.8 2 false = none ∧
    generateInfill okEvaluator 3 25 60 3 6 0.8 2 false = none := by
  refine ⟨?_, ?_, ?_⟩
  · exact ((generateInfill_null_policy failEvaluator 1 25 60 3 6 0.8 2
      false).2.2.2 _ rfl).mpr rfl
  · exact (generateInfill_null_policy okEvaluator 0 25 60 3 6 0.8 2 false).1 rfl
  · exact (generateInfill_null_policy okEvaluator 3 25 60 3 6 0.8 2
      false).2.1 (by decide)

/-- C6: the fin count is rounded to the nearest integer; when the rounded
value changes, the regeneration effect resets the part list to one base
part plus `n` x-fins and `n` z-fins — `2n+1` parts with ids
`base`, `xfin-0 .. xfin-(n-1)`, `zfin-0 .. zfin-(n-1)` — and clears the
selection; a parameter change that leaves the rounded fin count unchanged
(a shape-only change) leaves the state, in particular the part list,
untouched. -/
theorem wavy_regeneration (s : WavyState) (p : WavyParams) (n : ℕ)
    (hn : jsRound p.finCount = (n : ℤ)) :
    (∀ q : ℚ, |q - (jsRound q : ℚ)| ≤ 1/2) ∧
    (jsRound p.finCount = s.finCountDep →
      stepWavy s (WavyEvent.setParams p) = s) ∧
    (jsRound p.finCount ≠ s.finCountDep →
      (stepWavy s (WavyEvent.setParams p)).selected = [] ∧
      (stepWavy s (WavyEvent.setParams p)).parts.length = 2 * n + 1 ∧
      (stepWavy s (WavyEvent.setParams p)).parts.map (fun f => f.id) =
        "base" :: ((List.range n).map (fun i => "xfin-" ++ toString i) ++
          (List.range n).map (fun i => "zfin-" ++ toString i))) := by
  refine ⟨?_, ?_, ?_⟩
  · intro q
    rw [abs_le]
    have h1 := Int.floor_le (q + 1/2)
    have h2 := Int.lt_floor_add_one (q + 1/2)
    constructor <;> simp only [jsRound] <;> push_cast at h1 h2 ⊢ <;> linarith
  · intro he
    simp [stepWavy, he]
  · intro hne
    have hstep : stepWavy s (WavyEvent.setParams p) =
        { finCountDep := jsRound p.finCount,
          parts := genWavyParts (jsRound p.finCount), selected := [] } := by
      simp [stepWavy, hne]
    rw [hstep, hn]
    refine ⟨rfl, ?_, ?_⟩
    · simp [genWavyParts]
      ring
    · simp only [genWavyParts, List.map_cons, List.map_append, List.map_map]
      rfl

/-- Witness for C6: a fin-count slider move from 6 to 8.3 rounds to 8 and
resets the part list to 17 parts with an empty selection. -/
theorem wavy_regeneration_witness :
    (stepWavy { finCountDep := 6, parts := genWavyParts 6, selected := ["xfin-2"] }
        (WavyEvent.setParams
          { baseWidth := 2, baseDepth := 2, baseHeight := 1, finCount := 83/10,
            finThickness := 1, waveAvg := 1, waveA := 1, waveB := 1 })).parts.length
      = 17 ∧
    (stepWavy { finCountDep := 6, parts := genWavyParts 6, selected := ["xfin-2"] }
        (WavyEvent.setParams
          { baseWidth := 2, baseDepth := 2, baseHeight := 1, finCount := 83/10,
            finThickness := 1, waveAvg := 1, waveA := 1, waveB := 1 })).selected
      = [] := by
  obtain ⟨-, -, h3⟩ := wavy_regeneration
    { finCountDep := 6, parts := genWavyParts 6, selected := ["xfin-2"] }
    { baseWidth := 2, baseDepth := 2, baseHeight := 1, finCount := 83/10,
      finThickness := 1, waveAvg := 1, waveA := 1, waveB := 1 }
    8 (by norm_num [jsRound])
  obtain ⟨hsel, hlen, -⟩ := h3 (by norm_num [jsRound])
  exact ⟨hlen.trans (by norm_num), hsel⟩

/-- Every part produced by the regeneration effect carries the default
overrides. -/
theorem genWavyParts_overrides {q : WavyPart} {n : ℤ}
    (hq : q ∈ genWavyParts n) : q.overrides = WAVY_DEFAULT_OVERRIDES := by
  simp only [genWavyParts, List.mem_cons, List.mem_append, List.mem_map,
    List.mem_range] at hq
  rcases hq with rfl | ⟨⟨i, -, rfl⟩ | ⟨i, -, rfl⟩⟩ <;> rfl

/-- A freshly regenerated part list is bevel-aligned. -/
theorem bevelAligned_genWavyParts (n : ℤ) : bevelAligned (genWavyParts n) := by
  intro a ha b hb _
  rw [genWavyParts_overrides ha, genWavyParts_overrides hb]
  exact ⟨rfl, rfl⟩

/-- `wavyUpdateSingle` never changes a part's type. -/
theorem wavyUpdateSingle_type (ut : Option (List WavyPartType))
    (ids : List String) (patch : PartialOverrides) (f : WavyPart) :
    (wavyUpdateSingle ut ids patch f).type = f.type := by
  unfold wavyUpdateSingle
  by_cases h : f.id ∈ ids
  · simp [h]
  · cases ut with
    | none => simp [h]
    | some ts => by_cases h2 : f.type ∈ ts <;> simp [h, h2]

/-- Bevel values after `wavyUpdateSingle` when a bevel field is present:
parts whose type is among the updated types get the patch's bevel fields
(absent fields keeping their own value), all other parts keep their
overrides unchanged. -/
theorem wavyUpdateSingle_bevel_some (ts : List WavyPartType)
    (ids : List String) (patch : PartialOverrides) (f : WavyPart)
    (hmem : f.id ∈ ids → f.type ∈ ts) :
    (f.type ∈ ts →
      (wavyUpdateSingle (some ts) ids patch f).overrides.bevelRadius =
        patch.bevelRadius.getD f.overrides.bevelRadius ∧
      (wavyUpdateSingle (some ts) ids patch f).overrides.bevelSegments =
        patch.bevelSegments.getD f.overrides.bevelSegments) ∧
    (f.type ∉ ts →
      (wavyUpdateSingle (some ts) ids patch f).overrides = f.overrides) := by
  constructor
  · intro hts
    by_cases hid : f.id ∈ ids
    · simp [wavyUpdateSingle, hid, mergeOverrides]
    · simp [wavyUpdateSingle, hid, hts, mergeOverrides, bevelPatchOf]
  · intro hts
    have hid : f.id ∉ ids := fun hc => hts (hmem hc)
    simp [wavyUpdateSingle, hid, hts]

/-- Bevel values after `wavyUpdateSingle` when no bevel field is present:
every part keeps its bevel values. -/
theorem wavyUpdateSingle_bevel_none (ids : List String)
    (patch : PartialOverrides) (f : WavyPart)
    (hR : patch.bevelRadius = none) (hS : patch.bevelSegments = none) :
    (wavyUpdateSingle none ids patch f).overrides.bevelRadius =
      f.overrides.bevelRadius ∧
    (wavyUpdateSingle none ids patch f).overrides.bevelSegments =
      f.overrides.bevelSegments := by
  by_cases hid : f.id ∈ ids
  · simp [wavyUpdateSingle, hid, mergeOverrides, hR, hS]
  · simp [wavyUpdateSingle, hid]

/-- `updatePartOverrides` of `WavyStructure` preserves bevel alignment. -/
theorem wavyUpdate_preserves_bevelAligned (prev : List WavyPart)
    (ids : List String) (patch : PartialOverrides)
    (hA : bevelAligned prev) :
    bevelAligned (wavyUpdatePartOverrides prev ids patch) := by
  intro a2 ha2 b2 hb2 ht
  by_cases hB : (patch.bevelRadius.isSome || patch.bevelSegments.isSome) = true
  · have hmap : wavyUpdatePartOverrides prev ids patch =
        prev.map (wavyUpdateSingle
          (some ((prev.filter (fun f => decide (f.id ∈ ids))).map
            (fun f => f.type))) ids patch) := by
      simp [wavyUpdatePartOverrides, hB]
    rw [hmap] at ha2 hb2
    obtain ⟨a, ha, rfl⟩ := List.mem_map.mp ha2
    obtain ⟨b, hb, rfl⟩ := List.mem_map.mp hb2
    rw [wavyUpdateSingle_type, wavyUpdateSingle_type] at ht
    have hbase := hA a ha b hb ht
    have hmema : a.id ∈ ids →
        a.type ∈ (prev.filter (fun f => decide (f.id ∈ ids))).map
          (fun f => f.type) := by
      intro hc
      exact List.mem_map.mpr ⟨a, List.mem_filter.mpr ⟨ha, by simpa⟩, rfl⟩
    have hmemb : b.id ∈ ids →
        b.type ∈ (prev.filter (fun f => decide (f.id ∈ ids))).map
          (fun f => f.type) := by
      intro hc
      exact List.mem_map.mpr ⟨b, List.mem_filter.mpr ⟨hb, by simpa⟩, rfl⟩
    have Ha := wavyUpdateSingle_bevel_some _ ids patch a hmema
    have Hb := wavyUpdateSingle_bevel_some _ ids patch b hmemb
    by_cases hts : a.type ∈ (prev.filter (fun f => decide (f.id ∈ ids))).map
        (fun f => f.type)
    · have hts2 : b.type ∈ (prev.filter (fun f => decide (f.id ∈ ids))).map
          (fun f => f.type) := ht ▸ hts
      obtain ⟨hr, hs⟩ := Ha.1 hts
      obtain ⟨hr2, hs2⟩ := Hb.1 hts2
      rw [hr, hr2, hs, hs2, hbase.1, hbase.2]
      exact ⟨rfl, rfl⟩
    · have hts2 : b.type ∉ (prev.filter (fun f => decide (f.id ∈ ids))).map
          (fun f => f.type) := ht ▸ hts
      rw [Ha.2 hts, Hb.2 hts2]
      exact hbase
  · have hR : patch.bevelRadius = none := by
      cases hh : patch.bevelRadius with
      | none => rfl
      | some v => exact absurd (by simp [hh]) hB
    have hS : patch.bevelSegments = none := by
      cases hh : patch.bevelSegments with
      | none => rfl
      | some v => exact absurd (by simp [hh]) hB
    have hmap : wavyUpdatePartOverrides prev ids patch =
        prev.map (wavyUpdateSingle none ids patch) := by
      simp [wavyUpdatePartOverrides, hR, hS]
    rw [hmap] at ha2 hb2
    obtain ⟨a, ha, rfl⟩ := List.mem_map.mp ha2
    obtain ⟨b, hb, rfl⟩ := List.mem_map.mp hb2
    rw [wavyUpdateSingle_type, wavyUpdateSingle_type] at ht
    have hbase := hA a ha b hb ht
    obtain ⟨hra, hsa⟩ := wavyUpdateSingle_bevel_none ids patch a hR hS
    obtain ⟨hrb, hsb⟩ := wavyUpdateSingle_bevel_none ids patch b hR hS
    rw [hra, hrb, hsa, hsb]
    exact hbase

/-- Every step of the `WavyStructure` component preserves bevel
alignment. -/
theorem stepWavy_preserves_bevelAligned (s : WavyState) (e : WavyEvent)
    (h : bevelAligned s.parts) : bevelAligned (stepWavy s e).parts := by
  cases e with
  | setParams p =>
      by_cases he : jsRound p.finCount = s.finCountDep
      · simpa [stepWavy, he] using h
      · simpa [stepWavy, he] using bevelAligned_genWavyParts (jsRound p.finCount)
  | select ids => exact h
  | update ids patch => exact wavyUpdate_preserves_bevelAligned s.parts ids patch h
  | deleteSelected =>
      by_cases he : s.selected = []
      · simpa [stepWavy, he] using h
      · simp only [stepWavy, if_neg he]
        intro a ha b hb ht
        exact h a (List.mem_filter.mp ha).1 b (List.mem_filter.mp hb).1 ht

/-- C7: in every reachable part-list state of `WavyStructure` — after the
initial regeneration followed by any sequence of events (parameter
changes, selections, override updates, deletions) — all parts of the same
type carry identical `bevelRadius` and `bevelSegments` values, because
bevel fields of an update are propagated to every part sharing a type
with a targeted part. -/
theorem wavy_bevel_invariant (p : WavyParams) (es : List WavyEvent) :
    bevelAligned (runWavy p es).parts := by
  have hgen : ∀ s : WavyState, bevelAligned s.parts →
      bevelAligned (es.foldl stepWavy s).parts := by
    induction es with
    | nil => exact fun s h => h
    | cons e es2 ih =>
        exact fun s h => ih _ (stepWavy_preserves_bevelAligned s e h)
  exact hgen (initWavyState p) (bevelAligned_genWavyParts _)

/-- Witness for C7: after targeting only `xfin-0` with a bevel update, the
whole part list (including the untargeted `xfin-1`) is still
bevel-aligned. -/
theorem wavy_bevel_invariant_witness :
    bevelAligned ((runWavy
      { baseWidth := 2, baseDepth := 2, baseHeight := 1, finCount := 6,
        finThickness := 1, waveAvg := 1, waveA := 1, waveB := 1 }
      [WavyEvent.update ["xfin-0"] ⟨none, none, none, some (1/2), none⟩]).parts) :=
  wavy_bevel_invariant
    { baseWidth := 2, baseDepth := 2, baseHeight := 1, finCount := 6,
      finThickness := 1, waveAvg := 1, waveA := 1, waveB := 1 }
    [WavyEvent.update ["xfin-0"] ⟨none, none, none, some (1/2), none⟩]

/-- C8 (amended): `pointInTriangle` returns true exactly when the three
edge cross products do not contain both a strictly negative and a strictly
positive value, and for a nondegenerate triangle (nonzero signed area)
this holds exactly when the point lies strictly inside the triangle or on
its boundary; degenerate vertex triples must be excluded, since there the
sign test accepts points outside the collapsed triangle. -/
theorem pointInTriangle_spec {α : Type} [LinearOrderedField α]
    (px py : α) (v0 v1 v2 : α × α) :
    (pointInTriangle px py v0 v1 v2 = true ↔
      ¬ crossSignsMixed px py v0 v1 v2) ∧
    (triDet v0 v1 v2 ≠ 0 →
      (pointInTriangle px py v0 v1 v2 = true ↔
        insideOrOnBoundary px py v0 v1 v2)) := by
  obtain ⟨x0, y0⟩ := v0
  obtain ⟨x1, y1⟩ := v1
  obtain ⟨x2, y2⟩ := v2
  have hchar : pointInTriangle px py (x0, y0) (x1, y1) (x2, y2) = true ↔
      ¬ crossSignsMixed px py (x0, y0) (x1, y1) (x2, y2) := by
    simp only [pointInTriangle, crossSignsMixed, Bool.not_eq_true',
      Bool.and_eq_false_iff, Bool.or_eq_false_iff, decide_eq_false_iff_not,
      not_lt, not_and_or, not_or]
    tauto
  refine ⟨hchar, fun hD => hchar.trans ?_⟩
  simp only [triDet] at hD
  constructor
  · intro hno
    simp only [crossSignsMixed, not_and_or, not_or, not_lt] at hno
    simp only [insideOrOnBoundary]
    have hsum : ((px - x1) * (y0 - y1) - (x0 - x1) * (py - y1)) +
        ((px - x2) * (y1 - y2) - (x1 - x2) * (py - y2)) +
        ((px - x0) * (y2 - y0) - (x2 - x0) * (py - y0)) =
        (x1 - x0) * (y2 - y0) - (y1 - y0) * (x2 - x0) := by ring
    rcases hno with ⟨h1, h2, h3⟩ | ⟨h1, h2, h3⟩
    · -- all cross products nonnegative: D > 0
      have hDpos : 0 < (x1 - x0) * (y2 - y0) - (y1 - y0) * (x2 - x0) :=
        lt_of_le_of_ne (by linarith) (Ne.symm hD)
      refine ⟨((px - x2) * (y1 - y2) - (x1 - x2) * (py - y2)) /
          ((x1 - x0) * (y2 - y0) - (y1 - y0) * (x2 - x0)),
        ((px - x0) * (y2 - y0) - (x2 - x0) * (py - y0)) /
          ((x1 - x0) * (y2 - y0) - (y1 - y0) * (x2 - x0)),
        ((px - x1) * (y0 - y1) - (x0 - x1) * (py - y1)) /
          ((x1 - x0) * (y2 - y0) - (y1 - y0) * (x2 - x0)),
        div_nonneg h2 hDpos.le, div_nonneg h3 hDpos.le,
        div_nonneg h1 hDpos.le, ?_, ?_, ?_⟩
      · field_simp
        linarith
      · field_simp
        ring
      · field_simp
        ring
    · -- all cross products nonpositive: D < 0
      have hDneg : (x1 - x0) * (y2 - y0) - (y1 - y0) * (x2 - x0) < 0 :=
        lt_of_le_of_ne (by linarith) hD
      refine ⟨((px - x2) * (y1 - y2) - (x1 - x2) * (py - y2)) /
          ((x1 - x0) * (y2 - y0) - (y1 - y0) * (x2 - x0)),
        ((px - x0) * (y2 - y0) - (x2 - x0) * (py - y0)) /
          ((x1 - x0) * (y2 - y0) - (y1 - y0) * (x2 - x0)),
        ((px - x1) * (y0 - y1) - (x0 - x1) * (py - y1)) /
          ((x1 - x0) * (y2 - y0) - (y1 - y0) * (x2 - x0)),
        div_nonneg_iff.mpr (Or.inr ⟨h2, hDneg.le⟩),
        div_nonneg_iff.mpr (Or.inr ⟨h3, hDneg.le⟩),
        div_nonneg_iff.mpr (Or.inr ⟨h1, hDneg.le⟩), ?_, ?_, ?_⟩
      · field_simp
        linarith
      · field_simp
        ring
      · field_simp
        ring
  · rintro ⟨a, b, c, ha, hb, hc, habc, hx, hy⟩
    have h1 : (px - x1) * (y0 - y1) - (x0 - x1) * (py - y1) =
        c * ((x1 - x0) * (y2 - y0) - (y1 - y0) * (x2 - x0)) := by
      linear_combination (y0 - y1) * hx - (x0 - x1) * hy +
        (x1 * (y0 - y1) - y1 * (x0 - x1)) * habc
    have h2 : (px - x2) * (y1 - y2) - (x1 - x2) * (py - y2) =
        a * ((x1 - x0) * (y2 - y0) - (y1 - y0) * (x2 - x0)) := by
      linear_combination (y1 - y2) * hx - (x1 - x2) * hy +
        (x2 * (y1 - y2) - y2 * (x1 - x2)) * habc
    have h3 : (px - x0) * (y2 - y0) - (x2 - x0) * (py - y0) =
        b * ((x1 - x0) * (y2 - y0) - (y1 - y0) * (x2 - x0)) := by
      linear_combination (y2 - y0) * hx - (x2 - x0) * hy +
        (x0 * (y2 - y0) - y0 * (x2 - x0)) * habc
    simp only [crossSignsMixed, not_and_or, not_or, not_lt]
    rcases hD.lt_or_lt with hDneg | hDpos
    · right
      refine ⟨?_, ?_, ?_⟩
      · rw [h1]
        exact mul_nonpos_iff.mpr (Or.inl ⟨hc, hDneg.le⟩)
      · rw [h2]
        exact mul_nonpos_iff.mpr (Or.inl ⟨ha, hDneg.le⟩)
      · rw [h3]
        exact mul_nonpos_iff.mpr (Or.inl ⟨hb, hDneg.le⟩)
    · left
      refine ⟨?_, ?_, ?_⟩
      · rw [h1]
        exact mul_nonneg hc hDpos.le
      · rw [h2]
        exact mul_nonneg ha hDpos.le
      · rw [h3]
        exact mul_nonneg hb hDpos.le

/-- C8 counterexample: for the degenerate triangle whose three vertices
coincide at the origin, `pointInTriangle` returns true at `(1, 0)` even
though that point does not lie inside or on the collapsed triangle — the
claim's "true exactly when inside or on boundary" fails as stated for
arbitrary vertex triples. -/
theorem pointInTriangle_degenerate_cex :
    pointInTriangle (1 : ℚ) 0 (0, 0) (0, 0) (0, 0) = true ∧
    ¬ insideOrOnBoundary (1 : ℚ) 0 (0, 0) (0, 0) (0, 0) := by
  constructor
  · norm_num [pointInTriangle]
  · rintro ⟨a, b, c, -, -, -, -, hx, -⟩
    norm_num at hx

/-- Witness for C8 at a concrete nondegenerate triangle. -/
theorem pointInTriangle_spec_witness :
    pointInTriangle (1/4 : ℚ) (1/4) (0, 0) (1, 0) (0, 1) = true ↔
      insideOrOnBoundary (1/4 : ℚ) (1/4) (0, 0) (1, 0) (0, 1) :=
  (pointInTriangle_spec (1/4 : ℚ) (1/4) (0, 0) (1, 0) (0, 1)).2
    (by norm_num [triDet])

/-- Membership in the modelled `for` loop range. -/
theorem mem_intRange {x lo hi : ℤ} : x ∈ intRange lo hi ↔ lo ≤ x ∧ x ≤ hi := by
  constructor
  · intro hx
    rw [intRange] at hx
    obtain ⟨n, hn, rfl⟩ := List.mem_map.mp hx
    have := List.mem_range.mp hn
    omega
  · intro h
    rw [intRange]
    exact List.mem_map.mpr ⟨(x - lo).toNat,
      List.mem_range.mpr (by omega), by omega⟩

/-- The row parity computed by the source is always `0` or `1`. -/
theorem jsParity_zero_or_one (r : ℤ) : jsParity r = 0 ∨ jsParity r = 1 := by
  unfold jsParity
  cases r with
  | ofNat m =>
      have hm : (Int.ofNat m).tmod 2 = Int.ofNat (m % 2) := rfl
      rw [hm]
      rcases Nat.mod_two_eq_zero_or_one m with h | h <;> rw [h]
      · left
        decide
      · right
        decide
  | negSucc m =>
      have hm : (Int.negSucc m).tmod 2 = -Int.ofNat (m.succ % 2) := rfl
      rw [hm]
      rcases Nat.mod_two_eq_zero_or_one m.succ with h | h <;> rw [h]
      · left
        decide
      · right
        decide

example : jsParity 2 = 0 := by decide

/-- The expanded bounding triangle for the scenario-A parameters
`baseWidth = 50` (`hw = 25`), `triangleHeight = 60`, `wallThickness = 3`,
`cellSize = 6`. -/
theorem expandedTriVerts_concrete :
    expandedTriVerts 25 60 3 6 =
      ((-23.5 - 23.5 * (9 / Real.sqrt 913.25),
        1.5 - 19 * (9 / Real.sqrt 913.25)),
       (23.5 + 23.5 * (9 / Real.sqrt 913.25),
        1.5 - 19 * (9 / Real.sqrt 913.25)),
       (0, 67.5)) := by
  have h38 : Real.sqrt 1444 = 38 := by
    rw [show (1444 : ℝ) = 38 ^ 2 by norm_num]
    exact Real.sqrt_sq (by norm_num)
  unfold expandedTriVerts getInnerTriVerts expandVert
  norm_num
  refine ⟨⟨by ring, by ring⟩, by ring, ?_⟩
  rw [h38]
  norm_num

/-- The honeycomb center loops generate the grid point `(0, 19.5)`
(row 2, column 0) for the scenario-A parameters. -/
theorem honeycombCenters_mem_concrete :
    ((0 : ℝ), (19.5 : ℝ)) ∈ honeycombCenters 25 60 3 6 false := by
  have ha : 0 ≤ 9 / Real.sqrt 913.25 :=
    div_nonneg (by norm_num) (Real.sqrt_nonneg _)
  have hminY : jsMin3 (1.5 - 19 * (9 / Real.sqrt 913.25))
      (1.5 - 19 * (9 / Real.sqrt 913.25)) (67.5:ℝ) =
      1.5 - 19 * (9 / Real.sqrt 913.25) := by
    unfold jsMin3
    rw [min_self]
    exact min_eq_left (by nlinarith)
  have hmaxY : jsMax3 (1.5 - 19 * (9 / Real.sqrt 913.25))
      (1.5 - 19 * (9 / Real.sqrt 913.25)) (67.5:ℝ) = 67.5 := by
    unfold jsMax3
    rw [max_self]
    exact max_eq_right (by nlinarith)
  have hminX : jsMin3 (-23.5 - 23.5 * (9 / Real.sqrt 913.25))
      (23.5 + 23.5 * (9 / Real.sqrt 913.25)) (0:ℝ) =
      -23.5 - 23.5 * (9 / Real.sqrt 913.25) := by
    have h1 : min (-23.5 - 23.5 * (9 / Real.sqrt 913.25))
        (23.5 + 23.5 * (9 / Real.sqrt 913.25)) =
        -23.5 - 23.5 * (9 / Real.sqrt 913.25) := min_eq_left (by nlinarith)
    unfold jsMin3
    rw [h1]
    exact min_eq_left (by nlinarith)
  have hmaxX : jsMax3 (-23.5 - 23.5 * (9 / Real.sqrt 913.25))
      (23.5 + 23.5 * (9 / Real.sqrt 913.25)) (0:ℝ) =
      23.5 + 23.5 * (9 / Real.sqrt 913.25) := by
    have h1 : max (-23.5 - 23.5 * (9 / Real.sqrt 913.25))
        (23.5 + 23.5 * (9 / Real.sqrt 913.25)) =
        23.5 + 23.5 * (9 / Real.sqrt 913.25) := max_eq_right (by nlinarith)
    unfold jsMax3
    rw [h1]
    exact max_eq_left (by nlinarith)
  simp only [honeycombCenters, expandedTriVerts_concrete, hminY, hmaxY,
    hminX, hmaxX]
  norm_num
  have hA : (0:ℝ) ≤ 9 / (Real.sqrt 3653 / Real.sqrt 4) := by positivity
  refine ⟨2, mem_intRange.mpr ⟨?_, ?_⟩, ⟨?_, ?_⟩, 0,
    mem_intRange.mpr ⟨?_, ?_⟩, ?_, ?_, ?_⟩
  · have h1 : 0 ≤ ⌈19 * (9 / (Real.sqrt 3653 / Real.sqrt 4)) / 9⌉ :=
      Int.ceil_nonneg (by positivity)
    omega
  · have h1 : 0 ≤ ⌈(22:ℝ) / 3⌉ := Int.ceil_nonneg (by positivity)
    omega
  · push_cast
    nlinarith [hA]
  · push_cast
    norm_num
  · have h0 : (0:ℝ) ≤ (47 / 2 + 47 / 2 * (9 / (Real.sqrt 3653 / Real.sqrt 4)) -
        (-(47 / 2) - 47 / 2 * (9 / (Real.sqrt 3653 / Real.sqrt 4)))) := by
      nlinarith [hA]
    have h1 : 0 ≤ ⌈(47 / 2 + 47 / 2 * (9 / (Real.sqrt 3653 / Real.sqrt 4)) -
        (-(47 / 2) - 47 / 2 * (9 / (Real.sqrt 3653 / Real.sqrt 4)))) /
        (Real.sqrt 3 * 6)⌉ :=
      Int.ceil_nonneg (div_nonneg h0 (by positivity))
    omega
  · have h0 : (0:ℝ) ≤ (47 / 2 + 47 / 2 * (9 / (Real.sqrt 3653 / Real.sqrt 4)) -
        (-(47 / 2) - 47 / 2 * (9 / (Real.sqrt 3653 / Real.sqrt 4)))) := by
      nlinarith [hA]
    have h1 : 0 ≤ ⌈(47 / 2 + 47 / 2 * (9 / (Real.sqrt 3653 / Real.sqrt 4)) -
        (-(47 / 2) - 47 / 2 * (9 / (Real.sqrt 3653 / Real.sqrt 4)))) /
        (Real.sqrt 3 * 6)⌉ :=
      Int.ceil_nonneg (div_nonneg h0 (by positivity))
    omega
  · rw [show jsParity 2 = 0 from by decide]
    norm_num
    simp only [pointInTriangle, Bool.not_eq_true', Bool.and_eq_false_iff,
      Bool.or_eq_false_iff, decide_eq_false_iff_not, not_lt]
    left
    norm_num
    refine ⟨⟨?_, ?_⟩, ?_⟩ <;> nlinarith [hA]
  · rw [show jsParity 2 = 0 from by decide]
    norm_num
  · push_cast
    norm_num

/-- The honeycomb slab for the scenario-A parameters contains the hexagon
hole centered at `(0, 19.5)`. -/
theorem honeycomb_hole_mem_concrete :
    hexHolePath 0 19.5 (holeR 6 0.8) ∈
      (createHoneycombSlab 25 60 3 6 0.8 2 false).holes := by
  have h1 : (1:ℝ) ≤ Real.sqrt 3 := by
    rw [show (1:ℝ) = Real.sqrt 1 from Real.sqrt_one.symm]
    exact Real.sqrt_le_sqrt (by norm_num)
  have h2 : (0.8:ℝ) / Real.sqrt 3 ≤ 0.8 := div_le_self (by norm_num) h1
  have hgate : ¬ (holeR 6 0.8 ≤ 0.01) := by
    unfold holeR
    push_neg
    nlinarith [h2]
  simp only [createHoneycombSlab, if_neg hgate]
  exact List.mem_map.mpr ⟨((0:ℝ), (19.5:ℝ)), honeycombCenters_mem_concrete, rfl⟩

/-- C1: the hexagon hole radius is `cellSize - wallThickness / sqrt 3`;
whenever it is non-positive `createHoneycombSlab` skips hole generation
and returns the base slab with zero holes (for example at `cellSize = 6`,
`wallThickness = 12`); for `cellSize = 6`, `wallThickness = 0.8` the
radius equals `6 - 0.8 / sqrt 3`, is positive, and holes are generated. -/
theorem createHoneycombSlab_gate :
    (∀ cellSize wallThickness : ℝ,
      holeR cellSize wallThickness = cellSize - wallThickness / Real.sqrt 3) ∧
    (∀ hw H T cellSize wallThickness depth : ℝ, ∀ ft : Bool,
      holeR cellSize wallThickness ≤ 0 →
      (createHoneycombSlab hw H T cellSize wallThickness depth ft).holes = []) ∧
    holeR 6 12 ≤ 0 ∧
    (holeR 6 0.8 = 6 - 0.8 / Real.sqrt 3 ∧ 0 < holeR 6 0.8) ∧
    (createHoneycombSlab 25 60 3 6 0.8 2 false).holes ≠ [] := by
  have h1 : (1:ℝ) ≤ Real.sqrt 3 := by
    rw [show (1:ℝ) = Real.sqrt 1 from Real.sqrt_one.symm]
    exact Real.sqrt_le_sqrt (by norm_num)
  have hlt2 : Real.sqrt 3 < 2 := by
    rw [show (2:ℝ) = Real.sqrt 4 from ?_]
    · exact Real.sqrt_lt_sqrt (by norm_num) (by norm_num)
    · rw [show (4:ℝ) = 2 ^ 2 by norm_num]
      exact (Real.sqrt_sq (by norm_num)).symm
  have hpos : (0:ℝ) < Real.sqrt 3 := lt_of_lt_of_le one_pos h1
  refine ⟨fun _ _ => rfl, ?_, ?_, ⟨rfl, ?_⟩, ?_⟩
  · intro hw H T cellSize wallThickness depth ft hle
    have : holeR cellSize wallThickness ≤ 0.01 := le_trans hle (by norm_num)
    simp [createHoneycombSlab, this]
  · unfold holeR
    have : (6:ℝ) < 12 / Real.sqrt 3 := by
      rw [lt_div_iff₀ hpos]
      nlinarith
    linarith
  · have h2 : (0.8:ℝ) / Real.sqrt 3 ≤ 0.8 := div_le_self (by norm_num) h1
    unfold holeR
    nlinarith [h2]
  · exact List.ne_nil_of_mem honeycomb_hole_mem_concrete

/-- C5: every hexagon hole of the honeycomb slab is centered on the hex
grid `(colIdx * sqrt 3 * cellSize + rowParity * sqrt 3 * cellSize / 2,
anchorY + rowIdx * 1.5 * cellSize)` where `anchorY` is `H - T/2` for the
from-top origin and `T/2` for the from-bottom origin: rows are spaced
`1.5 * cellSize` apart starting exactly at the anchor edge, columns
`sqrt 3 * cellSize` apart, with odd rows offset by half that spacing. -/
theorem honeycomb_grid (hw H T cellSize wallThickness depth : ℝ) (ft : Bool) :
    ∀ hole ∈ (createHoneycombSlab hw H T cellSize wallThickness depth ft).holes,
      onHoneycombGrid H T cellSize wallThickness ft hole := by
  intro hole hmem
  by_cases hgate : holeR cellSize wallThickness ≤ 0.01
  · simp [createHoneycombSlab, hgate] at hmem
  · simp only [createHoneycombSlab, if_neg hgate] at hmem
    obtain ⟨p, hp, rfl⟩ := List.mem_map.mp hmem
    simp only [honeycombCenters] at hp
    simp only [onHoneycombGrid]
    cases ft <;> simp at hp <;>
      obtain ⟨rowIdx, hrow, -, colIdx, hcol, -, hpair⟩ := hp <;>
      subst hpair <;>
      refine ⟨rowIdx, colIdx, ?_⟩ <;>
      rcases jsParity_zero_or_one rowIdx with hpar | hpar <;>
        rw [hpar] <;> norm_num

/-- Witness for C5: the concrete hole at `(0, 19.5)` (row 2, column 0,
from-bottom anchor `T/2 = 1.5`) lies on the grid. -/
theorem honeycomb_grid_witness :
    onHoneycombGrid 60 3 6 0.8 false (hexHolePath 0 19.5 (holeR 6 0.8)) :=
  honeycomb_grid 25 60 3 6 0.8 2 false _ honeycomb_hole_mem_concrete

/-- Witness for C1: with the too-thick wall (`cellSize = 6`,
`wallThickness = 12`) the slab is returned with zero holes. -/
theorem createHoneycombSlab_gate_witness :
    (createHoneycombSlab 1 1 1 6 12 2 false).holes = [] :=
  createHoneycombSlab_gate.2.1 1 1 1 6 12 2 false
    createHoneycombSlab_gate.2.2.1
